import Mathlib

/-!
Shallow embedding of the physics / terrain / landing-judgment core of the
Lunar Lander repository (C++), with theorems checking the natural-language
specification against it.

Conventions of the embedding:
* C++ `double` values are modelled as `ℚ`.  Every concrete `double` the
  program manipulates is a rational number, and all arithmetic the claims
  depend on is exact on the values involved.
* Calls to the transcendental functions `sin`/`cos` (applied to the lander
  angle, and to the normalized terrain coordinate) are modelled as oracle
  parameters `sinO cosO : ℚ → ℚ`; theorems quantify over the oracles, so
  they hold in particular for the real sine/cosine rounded to any values.
  The constant `M_PI` is likewise an oracle parameter `piQ : ℚ`.
* Calls to `rand()` are modelled as explicit nonnegative-integer inputs
  (one parameter or stream per call site); theorems about randomized code
  quantify over them.
* `static_cast<int>` on a `double` truncates toward zero: `cppInt`.
  C++ `%` and `/` on `int` are truncated division: `Int.tmod` / `Int.tdiv`.
-/

namespace LunarLander

/-- `static_cast<int>` of a double: truncation toward zero. -/
def cppInt (q : ℚ) : ℤ := if 0 ≤ q then ⌊q⌋ else -⌊-q⌋

/-- `std::max(lo, std::min(v, hi))`, the clamp pattern used by the terrain code. -/
def clampQ (lo hi v : ℚ) : ℚ := max lo (min v hi)

/-- Position (position.h): a 2-D point with double coordinates. -/
structure Position where
  x : ℚ
  y : ℚ
deriving DecidableEq, Repr

/-- Velocity (velocity.h): 2-D velocity. -/
structure Velocity where
  dx : ℚ
  dy : ℚ
deriving DecidableEq, Repr

/-- Acceleration (acceleration.h): 2-D acceleration. -/
structure Acceleration where
  ddx : ℚ
  ddy : ℚ
deriving DecidableEq, Repr

/-- `Position::add` (position.cpp): `x = x + (v.dx * t) + (0.5 * a.ddx * t * t)`,
same on y. -/
def Position.add (p : Position) (acceleration : Acceleration) (velocity : Velocity)
    (time : ℚ) : Position :=
  { x := p.x + (velocity.dx * time) + ((5/10) * acceleration.ddx * time * time)
    y := p.y + (velocity.dy * time) + ((5/10) * acceleration.ddy * time * time) }

/-- `Velocity::add` (velocity.cpp): `dx = dx + a.ddx * time`, same on dy. -/
def Velocity.add (v : Velocity) (acceleration : Acceleration) (time : ℚ) : Velocity :=
  { dx := v.dx + acceleration.ddx * time
    dy := v.dy + acceleration.ddy * time }

/-- `Velocity::isSafeLandingSpeedTest` (velocity.cpp):
`fabs(dx) <= 2.0 && fabs(dy) <= 2.0`. -/
def Velocity.isSafeLandingSpeedTest (v : Velocity) : Bool :=
  decide (|v.dx| ≤ 2) && decide (|v.dy| ≤ 2)

/-- Spec-side kinematic formula for the position update, written from the
spec's words: `x' = x + v*t + 0.5*a*t²` per axis. -/
def specPositionStep (p : Position) (v : Velocity) (a : Acceleration) (t : ℚ) : Position :=
  { x := p.x + v.dx * t + (1/2) * a.ddx * t ^ 2
    y := p.y + v.dy * t + (1/2) * a.ddy * t ^ 2 }

/-- Spec-side kinematic formula for the velocity update: `v' = v + a*t` per axis. -/
def specVelocityStep (v : Velocity) (a : Acceleration) (t : ℚ) : Velocity :=
  { dx := v.dx + a.ddx * t
    dy := v.dy + a.ddy * t }

/-- Thrust (thrust.h): the per-frame control snapshot. -/
structure Thrust where
  mainEngine : Bool
  clockwise : Bool
  counterClockwise : Bool
deriving DecidableEq, Repr

/-- `Thrust::rotation` (thrust.h): `(clockwise ? 0.1 : 0.0) + (counterClockwise ? -0.1 : 0.0)`. -/
def Thrust.rotation (t : Thrust) : ℚ :=
  (if t.clockwise then 1/10 else 0) + (if t.counterClockwise then -(1/10) else 0)

/-- `Thrust::mainEngineThrust` (thrust.h): when the main engine is on, the
fixed lab constants `45000.0 / 15103.0`; otherwise `0.0`. -/
def Thrust.mainEngineThrust (t : Thrust) : ℚ :=
  if t.mainEngine then 45000 / 15103 else 0

/-- Lander status enumeration (lander.h). -/
inductive Status where
  | PLAYING
  | SAFE
  | DEAD
deriving DecidableEq, Repr

/-- Lander state (lander.h): position, velocity, angle (raw radians), status,
fuel.  `dryMass = 10183.0` is a constant of the class. -/
structure Lander where
  pos : Position
  velocity : Velocity
  angle : ℚ
  status : Status
  fuel : ℚ
deriving DecidableEq, Repr

/-- `Lander::FUEL_CONSUMPTION_MAIN = 10.0` (lander.cpp). -/
def FUEL_CONSUMPTION_MAIN : ℚ := 10

/-- `Lander::FUEL_CONSUMPTION_ATTITUDE = 1.0` (lander.cpp). -/
def FUEL_CONSUMPTION_ATTITUDE : ℚ := 1

/-- `Lander::getTotalMass` (lander.h): `dryMass + fuel` with `dryMass = 10183.0`. -/
def Lander.getTotalMass (l : Lander) : ℚ := 10183 + l.fuel

/-- `Lander::consumeFuel` (lander.cpp): `fuel = std::max(0.0, fuel - amount)`. -/
def Lander.consumeFuel (l : Lander) (amount : ℚ) : Lander :=
  { l with fuel := max 0 (l.fuel - amount) }

/-- `Lander::updateFuel` (lander.cpp): `fuel = std::max(0.0, fuel - fuelConsumption)`. -/
def Lander.updateFuel (l : Lander) (fuelConsumption : ℚ) : Lander :=
  { l with fuel := max 0 (l.fuel - fuelConsumption) }

/-- `Lander::input` (lander.cpp): build the frame's acceleration from gravity,
then — only when `status == PLAYING && fuel > 0.0` — apply main-engine thrust
(`ddx -= sin(angle)*a`, `ddy += cos(angle)*a`, consume `FUEL_CONSUMPTION_MAIN`)
and each active rotation control (`angle += thrust.rotation()`, consume
`FUEL_CONSUMPTION_ATTITUDE`).  Returns the mutated lander and the acceleration. -/
def Lander.input (sinO cosO : ℚ → ℚ) (l : Lander) (thrust : Thrust) (gravity : ℚ) :
    Lander × Acceleration :=
  let acceleration : Acceleration := { ddx := 0, ddy := gravity }
  if l.status = Status.PLAYING ∧ l.fuel > 0 then
    let step1 : Lander × Acceleration :=
      if thrust.mainEngine then
        let thrustAcceleration := thrust.mainEngineThrust
        (l.consumeFuel FUEL_CONSUMPTION_MAIN,
         { acceleration with
            ddx := acceleration.ddx - sinO l.angle * thrustAcceleration
            ddy := acceleration.ddy + cosO l.angle * thrustAcceleration })
      else (l, acceleration)
    let step2 : Lander :=
      if thrust.clockwise then
        ({ step1.1 with angle := step1.1.angle + thrust.rotation }).consumeFuel
          FUEL_CONSUMPTION_ATTITUDE
      else step1.1
    let step3 : Lander :=
      if thrust.counterClockwise then
        ({ step2 with angle := step2.angle + thrust.rotation }).consumeFuel
          FUEL_CONSUMPTION_ATTITUDE
      else step2
    (step3, step1.2)
  else (l, acceleration)

/-- `Lander::coast` (lander.cpp): `pos.add(acceleration, velocity, time)` then
`velocity.add(acceleration, time)`. -/
def Lander.coast (l : Lander) (acceleration : Acceleration) (time : ℚ) : Lander :=
  { l with
      pos := l.pos.add acceleration l.velocity time
      velocity := l.velocity.add acceleration time }

/-- `Lander::land` (lander.cpp): `angle.setUp(); status = SAFE;`. -/
def Lander.land (l : Lander) : Lander :=
  { l with angle := 0, status := Status.SAFE }

/-- `Lander::crash` (lander.cpp): `angle.setDown(); status = DEAD;` — `setDown`
stores `M_PI`, modelled by the oracle `piQ`. -/
def Lander.crash (piQ : ℚ) (l : Lander) : Lander :=
  { l with angle := piQ, status := Status.DEAD }

/-- `Lander::checkSafetyLanding` (lander.cpp):
`velocity.isSafeLandingSpeedTest() && (angle.getRadians() < 0.2 || angle.getRadians() > 6.08)`. -/
def Lander.checkSafetyLanding (l : Lander) : Bool :=
  l.velocity.isSafeLandingSpeedTest &&
    (decide (l.angle < 2/10) || decide (l.angle > 608/100))

/-- The lander's angle test read over the real numbers (same literal
comparisons as `Lander.checkSafetyLanding`), so that the spec's quantified
wraparound property — equal answers at angles differing by multiples of
`2 * π` — can be stated exactly. -/
def uprightAngleTestR (radians : ℝ) : Prop :=
  radians < 2/10 ∨ radians > 608/100

/-- `Lander::reset` (lander.cpp): angle up, position at the top right with
random vertical jitter, random leftward velocity, `status = PLAYING`,
`fuel = 5000.0`.  The three `rand()` results are explicit arguments. -/
def Lander.reset (rY rVX rVY : ℕ) (posUpperRight : Position) (l : Lander) : Lander :=
  { l with
      angle := 0
      pos := { x := posUpperRight.x - 1
               y := posUpperRight.y * (75/100) + (((rY % 20 : ℕ) : ℤ) - 10 : ℤ) }
      velocity := { dx := -4 - ((rVX % 7 : ℕ) : ℚ), dy := -2 + ((rVY % 5 : ℕ) : ℚ) }
      status := Status.PLAYING
      fuel := 5000 }

/-- An in-order map carrying the running array index, mirroring the C++
`for (int i = ...)` loops that overwrite `ground[i]` using only `ground[i]`. -/
def mapIdxFrom (f : ℕ → ℚ → ℚ) : ℕ → List ℚ → List ℚ
  | _, [] => []
  | i, v :: rest => f i v :: mapIdxFrom f (i + 1) rest

/-- `Ground::generateTerrain` (ground.cpp): `groundSize = int(width / 2)`;
each sample is `baseHeight` (25% of screen height) plus three sine components
and bounded noise, clamped into `[0.05 * H, 0.6 * H]`.  `sinO` is the sine
oracle, `piQ` the `M_PI` constant, `noiseR i` the `rand()` result for
sample `i`. -/
def generateTerrain (sinO : ℚ → ℚ) (piQ : ℚ) (noiseR : ℕ → ℕ)
    (posUpperRight : Position) : List ℚ :=
  let gs : ℕ := (cppInt (posUpperRight.x / 2)).toNat
  let screenHeight := posUpperRight.y
  let baseHeight := screenHeight * (25/100)
  let maxHeight := screenHeight * (6/10)
  (List.range gs).map (fun (i : ℕ) =>
    let x : ℚ := (i : ℚ) / (gs : ℚ)
    let terrain := baseHeight
      + sinO (x * piQ * 3) * (maxHeight - baseHeight) * (4/10)
      + sinO (x * piQ * 7) * (maxHeight - baseHeight) * (2/10)
      + sinO (x * piQ * 15) * (maxHeight - baseHeight) * (1/10)
      + (((noiseR i % 30 : ℕ) : ℚ) - 15) * (6/10)
    clampQ (screenHeight * (5/100)) maxHeight terrain)

/-- One dramatic feature of `Ground::addTerrainFeatures` (ground.cpp): for
indices within `width` of `center`, blend toward the extreme with linear
falloff and re-clamp into `[0.05 * H, 0.6 * H]`. -/
def featureApply (h : ℚ) (center width : ℤ) (isPeak : Bool) (g : List ℚ) : List ℚ :=
  let maxHeight := h * (6/10)
  let minHeight := h * (5/100)
  mapIdxFrom (fun i v =>
    if max 0 (center - width) ≤ (i : ℤ) ∧ (i : ℤ) ≤ min ((g.length : ℤ) - 1) (center + width) then
      let distance : ℚ := |((i : ℚ) - (center : ℚ))|
      let factor : ℚ := 1 - distance / (width : ℚ)
      if factor > 0 then
        clampQ minHeight maxHeight
          (if isPeak then v + factor * (maxHeight - v) * (5/10)
           else v - factor * (v - minHeight) * (5/10))
      else v
    else v) 0 g

/-- `Ground::addTerrainFeatures` (ground.cpp): `2 + rand() % 3` features, each
with random center `50 + rand() % (groundSize - 100)`, width `20 + rand() % 40`
and a random peak/valley choice.  C++ `%` on `int` is `Int.tmod`. -/
def addTerrainFeatures (h : ℚ) (nfR : ℕ) (featCR featWR featPR : ℕ → ℕ)
    (g : List ℚ) : List ℚ :=
  if g.length = 0 then g
  else
    let numFeatures := 2 + nfR % 3
    (List.range numFeatures).foldl (fun acc f =>
      let center : ℤ := 50 + Int.tmod (featCR f) ((acc.length : ℤ) - 100)
      let width : ℤ := 20 + ((featWR f : ℤ) % 40)
      let isPeak : Bool := featPR f % 2 == 0
      featureApply h center width isPeak acc) g

/-- `Ground::generatePlatform` (ground.cpp): random platform width in
`[50, 99]`; scan indices `[50, groundSize - 50)` for the first sample strictly
between 10% and 40% of screen height (default: the midpoint); flatten the
index span `bestLocation ± int(platformWidth / 3) / 2` to that sample's
height; record the platform's world position, width and height.  Returns
`(ground, platformPosition, platformWidth, platformHeight)`; on an empty
array the C++ returns leaving the constructor's zero platform fields. -/
def generatePlatform (posUpperRight : Position) (platR : ℕ) (g : List ℚ) :
    List ℚ × Position × ℚ × ℚ :=
  if g.length = 0 then (g, { x := 0, y := 0 }, 0, 0)
  else
    let platformWidth : ℚ := 50 + ((platR % 50 : ℕ) : ℚ)
    let bestLocation : ℕ :=
      (((List.range (g.length - 100)).map (fun k => k + 50)).find? (fun i =>
        decide (posUpperRight.y * (1/10) < g.getD i 0) &&
        decide (g.getD i 0 < posUpperRight.y * (4/10)))).getD (g.length / 2)
    let platformHeight : ℚ := g.getD bestLocation 0
    let platformPixelWidth : ℤ := cppInt (platformWidth / 3)
    let platformStart : ℤ := max 0 ((bestLocation : ℤ) - platformPixelWidth.tdiv 2)
    let platformEnd : ℤ := min ((g.length : ℤ) - 1) ((bestLocation : ℤ) + platformPixelWidth.tdiv 2)
    let g2 := mapIdxFrom (fun i v =>
      if platformStart ≤ (i : ℤ) ∧ (i : ℤ) ≤ platformEnd then platformHeight else v) 0 g
    (g2,
     { x := ((bestLocation : ℚ) / (g.length : ℚ)) * posUpperRight.x, y := platformHeight },
     platformWidth, platformHeight)

/-- Ground state (ground.h): screen bounds, the elevation samples, and the
platform's position, width and height. -/
structure Ground where
  posUpperRight : Position
  ground : List ℚ
  platformPosition : Position
  platformWidth : ℚ
  platformHeight : ℚ
deriving DecidableEq, Repr

/-- `Ground::reset` (ground.cpp): regenerate terrain, add dramatic features,
carve the platform (`smoothTerrain()` is not called in this variant). -/
def Ground.reset (sinO : ℚ → ℚ) (piQ : ℚ) (noiseR : ℕ → ℕ) (nfR : ℕ)
    (featCR featWR featPR : ℕ → ℕ) (platR : ℕ) (posUpperRight : Position) : Ground :=
  let g0 := generateTerrain sinO piQ noiseR posUpperRight
  let g1 := addTerrainFeatures posUpperRight.y nfR featCR featWR featPR g0
  let r := generatePlatform posUpperRight platR g1
  { posUpperRight := posUpperRight
    ground := r.1
    platformPosition := r.2.1
    platformWidth := r.2.2.1
    platformHeight := r.2.2.2 }

/-- `Ground::getElevationMeters` (ground.cpp): `0.0` on an ungenerated array,
else the sample at `int((x / width) * groundSize)` clamped into
`[0, groundSize - 1]`. -/
def Ground.getElevationMeters (g : Ground) (pos : Position) : ℚ :=
  if g.ground.length = 0 then 0
  else
    let index : ℤ := cppInt ((pos.x / g.posUpperRight.x) * (g.ground.length : ℚ))
    let clamped : ℤ := max 0 (min index ((g.ground.length : ℤ) - 1))
    g.ground.getD clamped.toNat 0

/-- `Ground::onPlatform` (ground.cpp): the lander's footprint
`[x - w/2, x + w/2]` lies inside the platform's span. -/
def Ground.onPlatform (g : Ground) (posLander : Position) (landerWidth : ℤ) : Bool :=
  let landerLeft := posLander.x - (landerWidth : ℚ) / 2
  let landerRight := posLander.x + (landerWidth : ℚ) / 2
  let platformLeft := g.platformPosition.x - g.platformWidth / 2
  let platformRight := g.platformPosition.x + g.platformWidth / 2
  decide (landerLeft ≥ platformLeft) && decide (landerRight ≤ platformRight)

/-- Per-frame input snapshot (uiInteract.h, external collaborator): the four
boolean queries the simulator polls. -/
structure Interface where
  isDown : Bool
  isLeft : Bool
  isRight : Bool
  isSpace : Bool
deriving DecidableEq, Repr

/-- `Thrust::set` (thrust.h): `mainEngine = isDown; counterClockwise = isLeft;
clockwise = isRight`. -/
def Thrust.set (pUI : Interface) : Thrust :=
  { mainEngine := pUI.isDown, clockwise := pUI.isRight, counterClockwise := pUI.isLeft }

/-- The `rand()` results a full `Simulator::display` frame may consume
(lander reset jitter and the terrain-generation streams). -/
structure Rands where
  landerY : ℕ
  landerVX : ℕ
  landerVY : ℕ
  noiseR : ℕ → ℕ
  nfR : ℕ
  featCR : ℕ → ℕ
  featWR : ℕ → ℕ
  featPR : ℕ → ℕ
  platR : ℕ

/-- Simulator state (main.cpp): ground, lander, game time and counters. -/
structure Simulator where
  posUpperRight : Position
  ground : Ground
  lander : Lander
  gameTime : ℚ
  attempts : ℕ
  successes : ℕ
  showInstructions : Bool

/-- `Simulator::resetGame` (main.cpp): reset lander and ground, zero the
game time, show instructions again. -/
def Simulator.resetGame (sinO : ℚ → ℚ) (piQ : ℚ) (r : Rands) (s : Simulator) :
    Simulator :=
  { s with
      lander := s.lander.reset r.landerY r.landerVX r.landerVY s.posUpperRight
      ground := Ground.reset sinO piQ r.noiseR r.nfR r.featCR r.featWR r.featPR
        r.platR s.posUpperRight
      gameTime := 0
      showInstructions := true }

/-- `Simulator::handleInput` (main.cpp): hide instructions on any control
input; reset the game on space when the lander is not flying. -/
def Simulator.handleInput (sinO : ℚ → ℚ) (piQ : ℚ) (r : Rands) (pUI : Interface)
    (s : Simulator) : Simulator :=
  let s1 := if pUI.isDown || pUI.isLeft || pUI.isRight
    then { s with showInstructions := false } else s
  if pUI.isSpace && !(decide (s1.lander.status = Status.PLAYING))
    then s1.resetGame sinO piQ r else s1

/-- `Simulator::updatePhysics` (main.cpp): build the thrust snapshot, get the
acceleration from `Lander::input` with lunar gravity `-1.625`, and coast for
`1/60` s. -/
def Simulator.updatePhysics (sinO cosO : ℚ → ℚ) (pUI : Interface) (s : Simulator) :
    Simulator :=
  let thrust := Thrust.set pUI
  let timeStep : ℚ := 1/60
  let r := s.lander.input sinO cosO thrust (-(1625/1000))
  { s with lander := r.1.coast r.2 timeStep }

/-- `Simulator::checkCollisions` (main.cpp): only while flying, compare the
lander's y to the terrain elevation beneath it; on contact count the attempt
and either `land()` (safe landing on the platform, counting a success) or
`crash()`. -/
def Simulator.checkCollisions (piQ : ℚ) (s : Simulator) : Simulator :=
  if ¬(s.lander.status = Status.PLAYING) then s
  else
    let landerPos := s.lander.pos
    let groundHeight := s.ground.getElevationMeters landerPos
    if landerPos.y ≤ groundHeight then
      let s1 := { s with attempts := s.attempts + 1 }
      if s1.lander.checkSafetyLanding && s1.ground.onPlatform landerPos 20 then
        { s1 with lander := s1.lander.land, successes := s1.successes + 1 }
      else
        { s1 with lander := s1.lander.crash piQ }
    else s

/-- `Simulator::display` (main.cpp): handle input; while flying run the
physics step and advance the game clock; then evaluate collisions (drawing
is external and stateless for the core). -/
def Simulator.display (sinO cosO : ℚ → ℚ) (piQ : ℚ) (r : Rands) (pUI : Interface)
    (s : Simulator) : Simulator :=
  let s1 := s.handleInput sinO piQ r pUI
  let s2 := if s1.lander.status = Status.PLAYING
    then { s1.updatePhysics sinO cosO pUI with gameTime := s1.gameTime + 1/10 }
    else s1
  s2.checkCollisions piQ

/-- A concrete pre-platform terrain used to evaluate `generatePlatform`:
30 samples (screen width 60), all at height 100 except sample 25 at 120. -/
def platformDemoTerrain : List ℚ :=
  (List.range 30).map (fun i => if i = 25 then (120 : ℚ) else 100)

theorem length_mapIdxFrom (f : ℕ → ℚ → ℚ) :
    ∀ (i : ℕ) (l : List ℚ), (mapIdxFrom f i l).length = l.length := by
  intro i l
  induction l generalizing i with
  | nil => rfl
  | cons v rest ih => simp [mapIdxFrom, ih]

theorem mem_mapIdxFrom (f : ℕ → ℚ → ℚ) :
    ∀ (i : ℕ) (l : List ℚ) (w : ℚ), w ∈ mapIdxFrom f i l →
      ∃ j v, v ∈ l ∧ w = f j v := by
  intro i l
  induction l generalizing i with
  | nil => intro w h; cases h
  | cons v rest ih =>
      intro w h
      rcases List.mem_cons.mp h with h1 | h2
      · exact ⟨i, v, List.mem_cons_self v rest, h1⟩
      · rcases ih (i + 1) w h2 with ⟨j, u, hu, hw⟩
        exact ⟨j, u, List.mem_cons_of_mem v hu, hw⟩

theorem clampQ_mem (lo hi v : ℚ) (h : lo ≤ hi) :
    lo ≤ clampQ lo hi v ∧ clampQ lo hi v ≤ hi :=
  ⟨le_max_left lo _, max_le h (min_le_right v hi)⟩

theorem max_zero_sub_eq (a b : ℚ) (h : b ≤ a) : max 0 (a - b) = a - b :=
  max_eq_right (sub_nonneg.mpr h)

/-- C5: `Position::add` updates each axis to `x' = x + v*t + 0.5*a*t²` and
`Velocity::add` updates each axis to `v' = v + a*t`, for every position,
velocity, acceleration and time `t ≥ 0` (exactly, hence within any
tolerance). -/
theorem position_velocity_add_match_kinematics (p : Position) (v : Velocity)
    (a : Acceleration) (t : ℚ) (ht : 0 ≤ t) :
    p.add a v t = specPositionStep p v a t ∧
    v.add a t = specVelocityStep v a t := by
  constructor
  · simp only [Position.add, specPositionStep, Position.mk.injEq]
    constructor <;> ring
  · simp only [Velocity.add, specVelocityStep]

theorem position_velocity_add_match_kinematics_witness :
    (0 : ℚ) ≤ 2 ∧
    ((Position.mk 1 2).add ⟨5, 6⟩ ⟨3, 4⟩ 2 = specPositionStep ⟨1, 2⟩ ⟨3, 4⟩ ⟨5, 6⟩ 2 ∧
     (Velocity.mk 3 4).add ⟨5, 6⟩ 2 = specVelocityStep ⟨3, 4⟩ ⟨5, 6⟩ 2) :=
  ⟨by norm_num,
   position_velocity_add_match_kinematics ⟨1, 2⟩ ⟨3, 4⟩ ⟨5, 6⟩ 2 (by norm_num)⟩

/-- C6: starting from any lander whose fuel is nonnegative, any sequence of
`consumeFuel` / `updateFuel` calls — with arbitrary amounts, including amounts
exceeding the remaining fuel — leaves the fuel nonnegative: both operations
clamp at `max(0.0, fuel - amount)`. -/
theorem fuel_never_negative (l : Lander) (amounts : List ℚ) (h : 0 ≤ l.fuel) :
    0 ≤ (amounts.foldl Lander.consumeFuel l).fuel ∧
    0 ≤ (amounts.foldl Lander.updateFuel l).fuel := by
  constructor
  · induction amounts generalizing l with
    | nil => exact h
    | cons a rest ih => exact ih (l.consumeFuel a) (le_max_left 0 _)
  · induction amounts generalizing l with
    | nil => exact h
    | cons a rest ih => exact ih (l.updateFuel a) (le_max_left 0 _)

theorem fuel_never_negative_witness :
    0 ≤ (Lander.mk ⟨0, 0⟩ ⟨0, 0⟩ 0 Status.PLAYING 5000).fuel ∧
    (0 ≤ ([6000, 3, -2].foldl Lander.consumeFuel
        ⟨⟨0, 0⟩, ⟨0, 0⟩, 0, Status.PLAYING, 5000⟩).fuel ∧
     0 ≤ ([6000, 3, -2].foldl Lander.updateFuel
        ⟨⟨0, 0⟩, ⟨0, 0⟩, 0, Status.PLAYING, 5000⟩).fuel) :=
  ⟨by norm_num,
   fuel_never_negative ⟨⟨0, 0⟩, ⟨0, 0⟩, 0, Status.PLAYING, 5000⟩ [6000, 3, -2]
     (by norm_num)⟩

/-- C1 (counterexample): the claim says the main-engine acceleration is the
thrust force divided by the lander's total current mass (dry mass + fuel);
but `Thrust::mainEngineThrust` divides by the fixed constant `15103.0`, while
even at nominal full fuel `getTotalMass() = 10183 + 5000 = 15183`, so the two
quotients differ. -/
theorem mainEngineThrust_ignores_current_mass :
    Thrust.mainEngineThrust ⟨true, false, false⟩ ≠
      45000 / Lander.getTotalMass ⟨⟨0, 0⟩, ⟨0, 0⟩, 0, Status.PLAYING, 5000⟩ := by
  norm_num [Thrust.mainEngineThrust, Lander.getTotalMass]

/-- C1 (amended): while PLAYING with fuel remaining, an active main engine
contributes the fixed acceleration `45000 / 15103` (directed by the angle)
on top of gravity, independent of the lander's current mass; with the main
engine inactive `mainEngineThrust` is `0`. -/
theorem input_main_engine_acceleration (sinO cosO : ℚ → ℚ) (l : Lander)
    (th : Thrust) (gravity : ℚ) (hs : l.status = Status.PLAYING)
    (hf : 0 < l.fuel) (hm : th.mainEngine = true) :
    (l.input sinO cosO th gravity).2 =
      { ddx := -(sinO l.angle * (45000 / 15103))
        ddy := gravity + cosO l.angle * (45000 / 15103) } ∧
    ∀ t2 : Thrust, t2.mainEngine = false → t2.mainEngineThrust = 0 := by
  constructor
  · rw [Lander.input, if_pos ⟨hs, hf⟩]
    simp only [hm, if_true, Thrust.mainEngineThrust]
    simp [Acceleration.mk.injEq]
  · intro t2 h2
    simp [Thrust.mainEngineThrust, h2]

theorem input_main_engine_acceleration_witness :
    (Lander.mk ⟨0, 0⟩ ⟨0, 0⟩ 0 Status.PLAYING 5000).status = Status.PLAYING ∧
    (0 : ℚ) < 5000 ∧ (Thrust.mk true false false).mainEngine = true ∧
    (((Lander.mk ⟨0, 0⟩ ⟨0, 0⟩ 0 Status.PLAYING 5000).input (fun q => q)
        (fun q => q) ⟨true, false, false⟩ (-(1625/1000))).2 =
      { ddx := -((0 : ℚ) * (45000 / 15103))
        ddy := -(1625/1000) + (0 : ℚ) * (45000 / 15103) } ∧
     ∀ t2 : Thrust, t2.mainEngine = false → t2.mainEngineThrust = 0) :=
  ⟨rfl, by norm_num, rfl,
   input_main_engine_acceleration (fun q => q) (fun q => q)
     ⟨⟨0, 0⟩, ⟨0, 0⟩, 0, Status.PLAYING, 5000⟩ ⟨true, false, false⟩
     (-(1625/1000)) rfl (by norm_num) rfl⟩

/-- C2 (counterexample): the upright test reads the raw radian value, so it is
not invariant under shifts by `2π`: the angle `0.3` (about 17°, and also
rejected by `checkSafetyLanding` with a safe-speed lander) is rejected, while
the physically identical `0.3 + 2π` passes the same comparison. -/
theorem checkSafetyLanding_no_wraparound :
    (¬ uprightAngleTestR (3/10) ∧ uprightAngleTestR (3/10 + 2 * Real.pi)) ∧
    Lander.checkSafetyLanding ⟨⟨0, 0⟩, ⟨0, 0⟩, 3/10, Status.PLAYING, 5000⟩ = false := by
  refine ⟨⟨?_, ?_⟩,
    by norm_num [Lander.checkSafetyLanding, Velocity.isSafeLandingSpeedTest,
      uprightAngleTestR]⟩
  · intro h
    simp only [uprightAngleTestR] at h
    rcases h with h | h <;> norm_num at h
  · simp only [uprightAngleTestR]
    right
    have hpi := Real.pi_gt_three
    linarith

/-- C2 (amended): `checkSafetyLanding` returns true iff `|dx| ≤ 2` and
`|dy| ≤ 2` and the raw angle value is `< 0.2` or `> 6.08` radians (about
±12° of upright only for angles already within `[0, 2π)`; no wraparound is
applied). -/
theorem checkSafetyLanding_characterization (l : Lander) :
    l.checkSafetyLanding = true ↔
      (|l.velocity.dx| ≤ 2 ∧ |l.velocity.dy| ≤ 2 ∧
       (l.angle < 2/10 ∨ l.angle > 608/100)) := by
  simp [Lander.checkSafetyLanding, Velocity.isSafeLandingSpeedTest, and_assoc]

/-- C3 (counterexample): in the actual per-frame step the simulator calls
`Lander::input`, which deducts the full `FUEL_CONSUMPTION_MAIN = 10` per call;
with the simulator's `dt = 1/60` the claimed deduction `rate × dt` would be
`1/6`.  Concretely, one `updatePhysics` frame with the main engine on drops
fuel from 5000 to 4990, not to `5000 - 10 * (1/60)`. -/
theorem input_fuel_deduction_not_scaled_by_dt :
    (Simulator.updatePhysics (fun q => q) (fun q => q) ⟨true, false, false, false⟩
      { posUpperRight := ⟨800, 600⟩
        ground := ⟨⟨800, 600⟩, [], ⟨0, 0⟩, 0, 0⟩
        lander := ⟨⟨400, 500⟩, ⟨0, 0⟩, 0, Status.PLAYING, 5000⟩
        gameTime := 0, attempts := 0, successes := 0,
        showInstructions := true }).lander.fuel = 4990 ∧
    (4990 : ℚ) ≠ 5000 - FUEL_CONSUMPTION_MAIN * (1/60) := by
  constructor
  · norm_num [Simulator.updatePhysics, Thrust.set, Lander.input, Lander.coast,
      Lander.consumeFuel, FUEL_CONSUMPTION_MAIN, FUEL_CONSUMPTION_ATTITUDE,
      Thrust.mainEngineThrust]
  · norm_num [FUEL_CONSUMPTION_MAIN]

/-- C3 (amended): in the per-frame input step (`Lander::input`) with the
lander PLAYING, fuel positive and fuel at least the frame's total
consumption, an active main engine deducts `FUEL_CONSUMPTION_MAIN = 10` and
each active rotation control deducts `FUEL_CONSUMPTION_ATTITUDE = 1` — the
rates themselves, not multiplied by the time step (only the uncalled
`applyThrust` scales by dt). -/
theorem input_fuel_deduction (sinO cosO : ℚ → ℚ) (l : Lander) (th : Thrust)
    (gravity : ℚ) (hs : l.status = Status.PLAYING) (hf : 0 < l.fuel)
    (hge : (if th.mainEngine then FUEL_CONSUMPTION_MAIN else 0) +
           (if th.clockwise then FUEL_CONSUMPTION_ATTITUDE else 0) +
           (if th.counterClockwise then FUEL_CONSUMPTION_ATTITUDE else 0) ≤ l.fuel) :
    (l.input sinO cosO th gravity).1.fuel =
      l.fuel - ((if th.mainEngine then FUEL_CONSUMPTION_MAIN else 0) +
                (if th.clockwise then FUEL_CONSUMPTION_ATTITUDE else 0) +
                (if th.counterClockwise then FUEL_CONSUMPTION_ATTITUDE else 0)) := by
  rcases th with ⟨m, c, cc⟩
  simp only [Lander.input]
  rw [if_pos ⟨hs, hf⟩]
  simp only [FUEL_CONSUMPTION_MAIN, FUEL_CONSUMPTION_ATTITUDE] at hge
  cases m <;> cases c <;> cases cc <;>
    simp only [Bool.false_eq_true, if_false, if_true, Lander.consumeFuel,
      FUEL_CONSUMPTION_MAIN, FUEL_CONSUMPTION_ATTITUDE] at hge ⊢
  · ring
  · rw [max_zero_sub_eq _ _ (by linarith)]; ring
  · rw [max_zero_sub_eq _ _ (by linarith)]; ring
  · rw [max_zero_sub_eq l.fuel 1 (by linarith)]
    rw [max_zero_sub_eq (l.fuel - 1) 1 (by linarith)]
    ring
  · rw [max_zero_sub_eq _ _ (by linarith)]; ring
  · rw [max_zero_sub_eq l.fuel 10 (by linarith)]
    rw [max_zero_sub_eq (l.fuel - 10) 1 (by linarith)]
    ring
  · rw [max_zero_sub_eq l.fuel 10 (by linarith)]
    rw [max_zero_sub_eq (l.fuel - 10) 1 (by linarith)]
    ring
  · rw [max_zero_sub_eq l.fuel 10 (by linarith)]
    rw [max_zero_sub_eq (l.fuel - 10) 1 (by linarith)]
    rw [max_zero_sub_eq (l.fuel - 10 - 1) 1 (by linarith)]
    ring

theorem input_fuel_deduction_witness :
    (Lander.mk ⟨0, 0⟩ ⟨0, 0⟩ 0 Status.PLAYING 5000).status = Status.PLAYING ∧
    (0 : ℚ) < 5000 ∧
    ((Lander.mk ⟨0, 0⟩ ⟨0, 0⟩ 0 Status.PLAYING 5000).input (fun q => q) (fun q => q)
        ⟨true, true, false⟩ 0).1.fuel =
      5000 - ((if true then FUEL_CONSUMPTION_MAIN else 0) +
              (if true then FUEL_CONSUMPTION_ATTITUDE else 0) +
              (if false then FUEL_CONSUMPTION_ATTITUDE else 0)) :=
  ⟨rfl, by norm_num,
   input_fuel_deduction (fun q => q) (fun q => q)
     ⟨⟨0, 0⟩, ⟨0, 0⟩, 0, Status.PLAYING, 5000⟩ ⟨true, true, false⟩ 0 rfl
     (by norm_num) (by norm_num [FUEL_CONSUMPTION_MAIN, FUEL_CONSUMPTION_ATTITUDE])⟩

/-- C10 (counterexample): with both rotation controls active, PLAYING and
`fuel = 1 > 0`, the frame consumes only the remaining 1 kg (the second
deduction clamps at zero), not `2 × FUEL_CONSUMPTION_ATTITUDE = 2`. -/
theorem both_rotations_low_fuel_consumes_less :
    ((Lander.mk ⟨0, 0⟩ ⟨0, 0⟩ 0 Status.PLAYING 1).input (fun q => q) (fun q => q)
        ⟨false, true, true⟩ (-(1625/1000))).1.fuel = 0 ∧
    (1 : ℚ) - 0 ≠ 2 * FUEL_CONSUMPTION_ATTITUDE := by
  constructor
  · norm_num [Lander.input, Lander.consumeFuel, FUEL_CONSUMPTION_ATTITUDE,
      Thrust.rotation]
  · norm_num [FUEL_CONSUMPTION_ATTITUDE]

/-- C10 (amended): with both rotation controls active in the same frame while
PLAYING and with fuel at least `2 × FUEL_CONSUMPTION_ATTITUDE`, the two
`±0.1` deltas cancel inside `Thrust::rotation` (net angle change exactly 0)
but attitude fuel is deducted twice: exactly `2 × FUEL_CONSUMPTION_ATTITUDE`
is consumed; with less fuel the deductions clamp at zero. -/
theorem both_rotations_cancel_double_fuel (sinO cosO : ℚ → ℚ) (l : Lander)
    (gravity : ℚ) (hs : l.status = Status.PLAYING)
    (hf : 2 * FUEL_CONSUMPTION_ATTITUDE ≤ l.fuel) :
    (l.input sinO cosO ⟨false, true, true⟩ gravity).1.angle = l.angle ∧
    (l.input sinO cosO ⟨false, true, true⟩ gravity).1.fuel =
      l.fuel - 2 * FUEL_CONSUMPTION_ATTITUDE ∧
    Thrust.rotation ⟨false, true, true⟩ = 0 := by
  have hf0 : 0 < l.fuel := by
    simp only [FUEL_CONSUMPTION_ATTITUDE] at hf; linarith
  simp only [FUEL_CONSUMPTION_ATTITUDE] at hf
  refine ⟨?_, ?_, by norm_num [Thrust.rotation]⟩ <;>
    rw [Lander.input, if_pos ⟨hs, hf0⟩] <;>
    simp only [Bool.false_eq_true, if_false, if_true, Lander.consumeFuel,
      Thrust.rotation, FUEL_CONSUMPTION_ATTITUDE]
  · norm_num
  · rw [max_zero_sub_eq l.fuel 1 (by linarith)]
    rw [max_zero_sub_eq (l.fuel - 1) 1 (by linarith)]
    ring

theorem both_rotations_cancel_double_fuel_witness :
    (Lander.mk ⟨0, 0⟩ ⟨0, 0⟩ (7/2) Status.PLAYING 5).status = Status.PLAYING ∧
    2 * FUEL_CONSUMPTION_ATTITUDE ≤ (5 : ℚ) ∧
    (((Lander.mk ⟨0, 0⟩ ⟨0, 0⟩ (7/2) Status.PLAYING 5).input (fun q => q)
        (fun q => q) ⟨false, true, true⟩ 0).1.angle = 7/2 ∧
     ((Lander.mk ⟨0, 0⟩ ⟨0, 0⟩ (7/2) Status.PLAYING 5).input (fun q => q)
        (fun q => q) ⟨false, true, true⟩ 0).1.fuel =
       5 - 2 * FUEL_CONSUMPTION_ATTITUDE ∧
     Thrust.rotation ⟨false, true, true⟩ = 0) :=
  ⟨rfl, by norm_num [FUEL_CONSUMPTION_ATTITUDE],
   both_rotations_cancel_double_fuel (fun q => q) (fun q => q)
     ⟨⟨0, 0⟩, ⟨0, 0⟩, 7/2, Status.PLAYING, 5⟩ 0 rfl
     (by norm_num [FUEL_CONSUMPTION_ATTITUDE])⟩

theorem generateTerrain_mem_bounds (sinO : ℚ → ℚ) (piQ : ℚ) (noiseR : ℕ → ℕ)
    (posUpperRight : Position) (hH : 0 ≤ posUpperRight.y) :
    ∀ v ∈ generateTerrain sinO piQ noiseR posUpperRight,
      posUpperRight.y * (5/100) ≤ v ∧ v ≤ posUpperRight.y * (6/10) := by
  intro v hv
  simp only [generateTerrain, List.mem_map] at hv
  obtain ⟨i, _, rfl⟩ := hv
  exact clampQ_mem _ _ _ (by linarith)

theorem featureApply_mem_bounds (h : ℚ) (center width : ℤ) (isPeak : Bool)
    (g : List ℚ) (hH : 0 ≤ h)
    (hg : ∀ v ∈ g, h * (5/100) ≤ v ∧ v ≤ h * (6/10)) :
    ∀ w ∈ featureApply h center width isPeak g,
      h * (5/100) ≤ w ∧ w ≤ h * (6/10) := by
  intro w hw
  obtain ⟨j, v, hv, rfl⟩ := mem_mapIdxFrom _ _ _ _ hw
  dsimp only [featureApply]
  split_ifs with h1 h2 h3
  · exact clampQ_mem _ _ _ (by linarith)
  · exact clampQ_mem _ _ _ (by linarith)
  · exact hg v hv
  · exact hg v hv

theorem foldl_mem_preserved (b : ℚ → Prop) (funcF : List ℚ → ℕ → List ℚ)
    (hF : ∀ acc f, (∀ v ∈ acc, b v) → ∀ w ∈ funcF acc f, b w) :
    ∀ (fs : List ℕ) (g : List ℚ), (∀ v ∈ g, b v) →
      ∀ w ∈ fs.foldl funcF g, b w := by
  intro fs
  induction fs with
  | nil => intro g hg w hw; exact hg w hw
  | cons a rest ih => intro g hg; exact ih (funcF g a) (hF g a hg)

theorem addTerrainFeatures_mem_bounds (h : ℚ) (nfR : ℕ)
    (featCR featWR featPR : ℕ → ℕ) (g : List ℚ) (hH : 0 ≤ h)
    (hg : ∀ v ∈ g, h * (5/100) ≤ v ∧ v ≤ h * (6/10)) :
    ∀ w ∈ addTerrainFeatures h nfR featCR featWR featPR g,
      h * (5/100) ≤ w ∧ w ≤ h * (6/10) := by
  rw [addTerrainFeatures]
  split
  · exact hg
  · exact foldl_mem_preserved _ _
      (fun acc f hacc => featureApply_mem_bounds h _ _ _ acc hH hacc) _ g hg

theorem generatePlatform_mem_bounds (posUpperRight : Position) (platR : ℕ)
    (g : List ℚ) (lo hi : ℚ) (hg : ∀ v ∈ g, lo ≤ v ∧ v ≤ hi) :
    ∀ w ∈ (generatePlatform posUpperRight platR g).1, lo ≤ w ∧ w ≤ hi := by
  rw [generatePlatform]
  split
  · exact fun w hw => hg w hw
  case isFalse hne =>
    intro w hw
    dsimp only at hw
    obtain ⟨j, v, hv, rfl⟩ := mem_mapIdxFrom _ _ _ _ hw
    split_ifs with h1
    · have hb : (((List.range (g.length - 100)).map (fun k => k + 50)).find? (fun i =>
          decide (posUpperRight.y * (1/10) < g.getD i 0) &&
          decide (g.getD i 0 < posUpperRight.y * (4/10)))).getD (g.length / 2) <
          g.length := by
        rcases hfind : ((List.range (g.length - 100)).map (fun k => k + 50)).find? (fun i =>
            decide (posUpperRight.y * (1/10) < g.getD i 0) &&
            decide (g.getD i 0 < posUpperRight.y * (4/10))) with _ | i
        · simp only [hfind, Option.getD_none]
          exact Nat.div_lt_self (Nat.pos_of_ne_zero hne) (by norm_num)
        · simp only [hfind, Option.getD_some]
          have hmem := List.mem_of_find?_eq_some hfind
          simp only [List.mem_map, List.mem_range] at hmem
          obtain ⟨k, hk, rfl⟩ := hmem
          omega
      rw [List.getD_eq_getElem g 0 hb]
      exact hg _ (List.getElem_mem hb)
    · exact hg v hv

/-- C7: after terrain generation — the sine-plus-noise base pass, the 2–4
randomized dramatic peak/valley features, and the platform carving — every
elevation sample lies within the configured bounds `[0.05 * H, 0.6 * H]`
(5% to 60% of the screen height `H`), for every random stream, every value
of the sine oracle, and every screen size with `H ≥ 0`. -/
theorem reset_ground_samples_within_bounds (sinO : ℚ → ℚ) (piQ : ℚ)
    (noiseR : ℕ → ℕ) (nfR : ℕ) (featCR featWR featPR : ℕ → ℕ) (platR : ℕ)
    (posUpperRight : Position) (hH : 0 ≤ posUpperRight.y) :
    ∀ v ∈ (Ground.reset sinO piQ noiseR nfR featCR featWR featPR platR
        posUpperRight).ground,
      posUpperRight.y * (5/100) ≤ v ∧ v ≤ posUpperRight.y * (6/10) := by
  have h0 := generateTerrain_mem_bounds sinO piQ noiseR posUpperRight hH
  have h1 := addTerrainFeatures_mem_bounds posUpperRight.y nfR featCR featWR
    featPR _ hH h0
  have h2 := generatePlatform_mem_bounds posUpperRight platR _ _ _ h1
  exact h2

theorem reset_ground_samples_within_bounds_witness :
    (0 : ℚ) ≤ (Position.mk 8 600).y ∧
    ∀ v ∈ (Ground.reset (fun q => q) 3 (fun n => n) 0 (fun n => n) (fun n => n)
        (fun n => n) 0 ⟨8, 600⟩).ground,
      (Position.mk 8 600).y * (5/100) ≤ v ∧ v ≤ (Position.mk 8 600).y * (6/10) :=
  ⟨by norm_num,
   reset_ground_samples_within_bounds (fun q => q) 3 (fun n => n) 0 (fun n => n)
     (fun n => n) (fun n => n) 0 ⟨8, 600⟩ (by norm_num)⟩

/-- C4 (code evaluated at the failing input): after `generatePlatform` on a
30-sample terrain (screen 60 × 600, platform `rand() = 0`), the platform is
centered at world x = 30 with width 50 and height 100, so its span is
`[5, 55]`; sample 25 sits at world x = `25/30 * 60 = 50`, inside that span,
yet keeps its original elevation 120 ≠ platformHeight: the code flattens only
`bestLocation ± int(platformWidth/3)/2` array indices (indices 7..23), about
two thirds of the platform's world span, so the claim that every sample
within the span equals `platformHeight` fails on the code. -/
theorem generatePlatform_sample_in_span_not_flattened :
    (generatePlatform ⟨60, 600⟩ 0 platformDemoTerrain).2.1.x = 30 ∧
    (generatePlatform ⟨60, 600⟩ 0 platformDemoTerrain).2.2.1 = 50 ∧
    (generatePlatform ⟨60, 600⟩ 0 platformDemoTerrain).2.2.2 = 100 ∧
    (generatePlatform ⟨60, 600⟩ 0 platformDemoTerrain).2.1.x -
        (generatePlatform ⟨60, 600⟩ 0 platformDemoTerrain).2.2.1 / 2 ≤ 25/30 * 60 ∧
    (25 : ℚ)/30 * 60 ≤ (generatePlatform ⟨60, 600⟩ 0 platformDemoTerrain).2.1.x +
        (generatePlatform ⟨60, 600⟩ 0 platformDemoTerrain).2.2.1 / 2 ∧
    (generatePlatform ⟨60, 600⟩ 0 platformDemoTerrain).1.getD 25 0 = 120 ∧
    (generatePlatform ⟨60, 600⟩ 0 platformDemoTerrain).1.getD 25 0 ≠
      (generatePlatform ⟨60, 600⟩ 0 platformDemoTerrain).2.2.2 := by
  norm_num [generatePlatform, platformDemoTerrain, mapIdxFrom, cppInt,
    List.range_succ, show Int.tdiv 16 2 = 8 from by decide]

theorem input_status_eq (sinO cosO : ℚ → ℚ) (l : Lander) (th : Thrust)
    (gravity : ℚ) : (l.input sinO cosO th gravity).1.status = l.status := by
  rw [Lander.input]
  split
  · dsimp only
    split <;> split <;> split <;> simp [Lander.consumeFuel]
  · rfl

theorem coast_status_eq (l : Lander) (a : Acceleration) (t : ℚ) :
    (l.coast a t).status = l.status := rfl

theorem checkCollisions_playing (piQ : ℚ) (s : Simulator)
    (hs : s.lander.status = Status.PLAYING) :
    s.checkCollisions piQ =
      if s.lander.pos.y ≤ s.ground.getElevationMeters s.lander.pos then
        (if (s.lander.checkSafetyLanding && s.ground.onPlatform s.lander.pos 20)
              = true then
           { s with lander := s.lander.land, attempts := s.attempts + 1,
                    successes := s.successes + 1 }
         else
           { s with lander := s.lander.crash piQ, attempts := s.attempts + 1 })
      else s := by
  rw [Simulator.checkCollisions, if_neg (by simp [hs])]

theorem handleInput_flying (sinO : ℚ → ℚ) (piQ : ℚ) (r : Rands) (pUI : Interface)
    (s : Simulator) (hs : s.lander.status = Status.PLAYING) :
    s.handleInput sinO piQ r pUI =
      if (pUI.isDown || pUI.isLeft || pUI.isRight) = true
        then { s with showInstructions := false } else s := by
  simp only [Simulator.handleInput]
  by_cases hc : (pUI.isDown || pUI.isLeft || pUI.isRight) = true <;>
    simp [hc, hs]

/-- C8: in the per-frame step `Simulator::display`, a PLAYING lander leaves
PLAYING exactly when the collision evaluator finds its post-physics position
at or below the terrain elevation beneath it; in that case the attempt
counter is incremented and exactly one of `land()` (when
`checkSafetyLanding()` and `onPlatform` both hold, also incrementing the
success counter) or `crash()` is invoked; otherwise status and both counters
are unchanged. -/
theorem display_transitions_only_on_contact (sinO cosO : ℚ → ℚ) (piQ : ℚ)
    (r : Rands) (pUI : Interface) (s : Simulator)
    (hs : s.lander.status = Status.PLAYING) :
    let phys := s.lander.input sinO cosO (Thrust.set pUI) (-(1625/1000))
    let l1 := phys.1.coast phys.2 (1/60)
    let sFin := s.display sinO cosO piQ r pUI
    (l1.pos.y ≤ s.ground.getElevationMeters l1.pos →
       sFin.attempts = s.attempts + 1 ∧
       ((l1.checkSafetyLanding && s.ground.onPlatform l1.pos 20) = true →
          sFin.lander.status = Status.SAFE ∧ sFin.successes = s.successes + 1) ∧
       ((l1.checkSafetyLanding && s.ground.onPlatform l1.pos 20) = false →
          sFin.lander.status = Status.DEAD ∧ sFin.successes = s.successes)) ∧
    (¬ l1.pos.y ≤ s.ground.getElevationMeters l1.pos →
       sFin.lander.status = Status.PLAYING ∧ sFin.attempts = s.attempts ∧
       sFin.successes = s.successes) := by
  intro phys l1 sFin
  have hl1 : l1.status = Status.PLAYING := by
    have := input_status_eq sinO cosO s.lander (Thrust.set pUI) (-(1625/1000))
    simp only [l1, phys, coast_status_eq, this, hs]
  have hsFin : sFin = Simulator.checkCollisions piQ
      { s with lander := l1,
               gameTime := s.gameTime + 1/10,
               showInstructions :=
                 if (pUI.isDown || pUI.isLeft || pUI.isRight) = true
                   then false else s.showInstructions } := by
    simp only [sFin, Simulator.display, handleInput_flying sinO piQ r pUI s hs]
    by_cases hc : (pUI.isDown || pUI.isLeft || pUI.isRight) = true <;>
      simp [hc, hs, Simulator.updatePhysics, l1, phys]
  rw [hsFin, checkCollisions_playing piQ _ hl1]
  dsimp only
  constructor
  · intro hcol
    rw [if_pos hcol]
    refine ⟨?_, ?_, ?_⟩
    · split_ifs <;> rfl
    · intro hsafe
      rw [if_pos hsafe]
      exact ⟨rfl, rfl⟩
    · intro hnotsafe
      rw [if_neg (by simp [hnotsafe])]
      exact ⟨rfl, rfl⟩
  · intro hcol
    rw [if_neg hcol]
    exact ⟨hl1, rfl, rfl⟩

theorem display_transitions_only_on_contact_witness :
    (Simulator.mk ⟨800, 600⟩ ⟨⟨800, 600⟩, [], ⟨0, 0⟩, 0, 0⟩
      ⟨⟨400, 500⟩, ⟨0, 0⟩, 0, Status.PLAYING, 5000⟩ 0 0 0 true).lander.status =
        Status.PLAYING ∧
    (let s0 : Simulator := ⟨⟨800, 600⟩, ⟨⟨800, 600⟩, [], ⟨0, 0⟩, 0, 0⟩,
        ⟨⟨400, 500⟩, ⟨0, 0⟩, 0, Status.PLAYING, 5000⟩, 0, 0, 0, true⟩
     let pUI0 : Interface := ⟨false, false, false, false⟩
     let phys := s0.lander.input (fun q => q) (fun q => q) (Thrust.set pUI0)
       (-(1625/1000))
     let l1 := phys.1.coast phys.2 (1/60)
     let sFin := s0.display (fun q => q) (fun q => q) 3
       ⟨0, 0, 0, fun n => n, 0, fun n => n, fun n => n, fun n => n, 0⟩ pUI0
     (l1.pos.y ≤ s0.ground.getElevationMeters l1.pos →
        sFin.attempts = s0.attempts + 1 ∧
        ((l1.checkSafetyLanding && s0.ground.onPlatform l1.pos 20) = true →
           sFin.lander.status = Status.SAFE ∧ sFin.successes = s0.successes + 1) ∧
        ((l1.checkSafetyLanding && s0.ground.onPlatform l1.pos 20) = false →
           sFin.lander.status = Status.DEAD ∧ sFin.successes = s0.successes)) ∧
     (¬ l1.pos.y ≤ s0.ground.getElevationMeters l1.pos →
        sFin.lander.status = Status.PLAYING ∧ sFin.attempts = s0.attempts ∧
        sFin.successes = s0.successes)) :=
  ⟨rfl,
   display_transitions_only_on_contact (fun q => q) (fun q => q) 3
     ⟨0, 0, 0, fun n => n, 0, fun n => n, fun n => n, fun n => n, 0⟩
     ⟨false, false, false, false⟩
     ⟨⟨800, 600⟩, ⟨⟨800, 600⟩, [], ⟨0, 0⟩, 0, 0⟩,
      ⟨⟨400, 500⟩, ⟨0, 0⟩, 0, Status.PLAYING, 5000⟩, 0, 0, 0, true⟩ rfl⟩

/-- C9: `getElevationMeters` is total: on an ungenerated (empty) terrain it
returns exactly `0.0`, and otherwise the raw index is clamped into
`[0, groundSize - 1]` and the sample at the clamped index is returned. -/
theorem getElevationMeters_total (g : Ground) (pos : Position) :
    (g.ground.length = 0 → g.getElevationMeters pos = 0) ∧
    (g.ground.length ≠ 0 →
      0 ≤ max 0 (min (cppInt ((pos.x / g.posUpperRight.x) * (g.ground.length : ℚ)))
            ((g.ground.length : ℤ) - 1)) ∧
      max 0 (min (cppInt ((pos.x / g.posUpperRight.x) * (g.ground.length : ℚ)))
            ((g.ground.length : ℤ) - 1)) ≤ (g.ground.length : ℤ) - 1 ∧
      ∃ h : (max 0 (min (cppInt ((pos.x / g.posUpperRight.x) * (g.ground.length : ℚ)))
            ((g.ground.length : ℤ) - 1))).toNat < g.ground.length,
        g.getElevationMeters pos =
          g.ground.get ⟨(max 0 (min (cppInt ((pos.x / g.posUpperRight.x) *
            (g.ground.length : ℚ))) ((g.ground.length : ℤ) - 1))).toNat, h⟩) := by
  constructor
  · intro h
    simp [Ground.getElevationMeters, h]
  · intro h
    have hlen : 1 ≤ (g.ground.length : ℤ) := by
      omega
    refine ⟨le_max_left 0 _, max_le (by omega) (min_le_right _ _), ?_⟩
    have hlt : (max 0 (min (cppInt ((pos.x / g.posUpperRight.x) *
        (g.ground.length : ℚ))) ((g.ground.length : ℤ) - 1))).toNat <
        g.ground.length := by
      have := max_le (show (0:ℤ) ≤ (g.ground.length : ℤ) - 1 by omega)
        (min_le_right (cppInt ((pos.x / g.posUpperRight.x) * (g.ground.length : ℚ)))
          ((g.ground.length : ℤ) - 1))
      omega
    refine ⟨hlt, ?_⟩
    rw [Ground.getElevationMeters, if_neg h]
    exact List.getD_eq_get _ _ hlt

theorem getElevationMeters_total_witness :
    (Ground.mk ⟨10, 10⟩ [] ⟨0, 0⟩ 0 0).getElevationMeters ⟨99, 0⟩ = 0 ∧
    (0 ≤ max 0 (min (cppInt (((99 : ℚ) / 10) * 3)) ((3 : ℤ) - 1)) ∧
      max 0 (min (cppInt (((99 : ℚ) / 10) * 3)) ((3 : ℤ) - 1)) ≤ (3 : ℤ) - 1 ∧
      ∃ h : (max 0 (min (cppInt (((99 : ℚ) / 10) * 3)) ((3 : ℤ) - 1))).toNat < 3,
        (Ground.mk ⟨10, 10⟩ [3, 4, 5] ⟨0, 0⟩ 0 0).getElevationMeters ⟨99, 0⟩ =
          List.get [(3 : ℚ), 4, 5]
            ⟨(max 0 (min (cppInt (((99 : ℚ) / 10) * 3)) ((3 : ℤ) - 1))).toNat, h⟩) :=
  ⟨(getElevationMeters_total ⟨⟨10, 10⟩, [], ⟨0, 0⟩, 0, 0⟩ ⟨99, 0⟩).1 rfl,
   (getElevationMeters_total ⟨⟨10, 10⟩, [3, 4, 5], ⟨0, 0⟩, 0, 0⟩ ⟨99, 0⟩).2
     (by decide)⟩

end LunarLander
